import Mathlib

/-!
Shallow embedding of the streaming renderer of `a2a-cli`
(`src/a2a_cli/streaming.py`, helper `src/a2a_cli/utils.py`).

The renderer `stream_task` consumes a sequence of events and writes to two
output streams: the primary stream (stdout, `click.echo` / `print`) and the
diagnostic stream (stderr, `click.echo(..., err=True)`).  We model one call
of `stream_task` as a pure function from the event list (plus an optional
transport failure raised after the listed events) to the list of output
actions it performs.  Exceptions that the code does not catch (the unguarded
indexing in `get_text`) are modelled with `Except`, the error payload being
the output flushed before the raise.
-/

namespace A2aCli

/-- Foreground colors used by `click.style` in `streaming.py`. -/
inductive Color
  | brightWhite
  | cyan
  | green
  | yellow
  | red
  | brightBlack
deriving DecidableEq, Repr

/-- The root of an `a2a.types.Part`: either a `TextPart` carrying text, or any
non-text part (`FilePart`, `DataPart`, ...), which carries no `text` field. -/
inductive PartRoot
  | textPart (text : String)
  | otherPart
deriving DecidableEq, Repr

/-- An `a2a.types.Part` wraps its union root. -/
structure PartT where
  root : PartRoot
deriving DecidableEq, Repr

/-- An `a2a.types.Message`: the renderer only reads its ordered parts. -/
structure MessageT where
  parts : List PartT
deriving DecidableEq, Repr

/-- An `a2a.types.Task`: the renderer only reads its id. -/
structure TaskT where
  id : String
deriving DecidableEq, Repr

/-- A task status: state name plus optional accompanying message
(`update.status.state`, `update.status.message`). -/
structure TaskStatus where
  state : String
  message : Option MessageT
deriving DecidableEq, Repr

/-- An artifact: name and ordered parts (`update.artifact.name`,
`update.artifact.parts`). -/
structure Artifact where
  name : String
  parts : List PartT
deriving DecidableEq, Repr

/-- The update half of a `(task, update)` pair: a `TaskArtifactUpdateEvent`,
a `TaskStatusUpdateEvent`, or anything else (which matches no branch). -/
inductive UpdateT
  | artifactUpdate (artifact : Artifact)
  | statusUpdate (status : TaskStatus)
  | otherUpdate
deriving DecidableEq, Repr

/-- One event yielded by the response stream: a final `Message`, a
`(task, update)` tuple, or any other value (silently ignored). -/
inductive Event
  | message (m : MessageT)
  | pair (task : TaskT) (update : UpdateT)
  | otherEvent
deriving DecidableEq, Repr

/-- One observable output action of `stream_task`.

* `primStyled s c`  — `click.echo(click.style(s, fg=c))`: a full line `s` on
  the primary stream (a newline is appended);
* `primChunk s c`   — `click.echo(click.style(s, fg=c), nl=False)`: raw text
  on the primary stream, no newline appended;
* `primBlank`       — `click.echo()` / `click.echo("")`: a bare newline on
  the primary stream;
* `printRepr u`     — `print(update)`: the repr of the update object,
  newline-terminated, on the primary stream (stdout);
* `diagStyled s c`  — `click.echo(click.style(s, fg=c), err=True)`: a full
  line on the diagnostic stream. -/
inductive OutAct
  | primStyled (s : String) (c : Color)
  | primChunk (s : String) (c : Color)
  | primBlank
  | printRepr (u : UpdateT)
  | diagStyled (s : String) (c : Color)
deriving DecidableEq, Repr

/-- Whether an output action writes to the primary stream (stdout). -/
def OutAct.isPrimary : OutAct → Bool
  | .diagStyled _ _ => false
  | _ => true

/-- `a2a_cli.utils.get_text`: returns `""` when the message is `None`,
otherwise `msg.parts[0].root.text`.  The indexing is unguarded: an empty
parts list raises `IndexError`, and a non-text first part has no `text`
attribute and raises `AttributeError`; both are modelled as `.error ()`. -/
def get_text : Option MessageT → Except Unit String
  | none => .ok ""
  | some msg =>
    match msg.parts with
    | [] => .error ()
    | p :: _ =>
      match p.root with
      | .textPart t => .ok t
      | .otherPart => .error ()

/-- The loop over `event.parts` of a final `Message`: each `TextPart` is
echoed as a styled bright-white line; other parts match no branch. -/
def renderMessageParts : List PartT → List OutAct
  | [] => []
  | p :: rest =>
    match p.root with
    | .textPart t => .primStyled t .brightWhite :: renderMessageParts rest
    | .otherPart => renderMessageParts rest

/-- Python's `text.endswith("\n")`: the suffix is the single character
`"\n"`, so this is exactly "the last character of `text` is a newline". -/
def endsWithNL (s : String) : Bool := s.data.getLast? == some '\x0a'

/-- The loop over `update.artifact.parts`: each `TextPart` is echoed with
`nl=False` in the chosen color, and `trailing_newline` is overwritten with
`text.endswith("\n")`; non-text parts leave it untouched.  Returns the
emitted chunks and the final value of `trailing_newline` (entered as
`trailing`, initially `False`). -/
def artifactLoop (c : Color) (trailing : Bool) : List PartT → List OutAct × Bool
  | [] => ([], trailing)
  | p :: rest =>
    match p.root with
    | .textPart t =>
      let r := artifactLoop c (endsWithNL t) rest
      (.primChunk t c :: r.1, r.2)
    | .otherPart => artifactLoop c trailing rest

/-- The local mutable state of one `stream_task` call: the cached task id
(`task_id`, initially `None`) and the open-artifact-line flag
(`artifact_open_line`, initially `False`). -/
structure RState where
  task_id : Option String
  artifact_open_line : Bool
deriving DecidableEq, Repr

/-- `if artifact_open_line: click.echo()` — close an open artifact line. -/
def closeIfOpen (flag : Bool) : List OutAct :=
  if flag then [.primBlank] else []

/-- The `if task_id is None:` block of a tuple event: on a fresh cache, echo
the `Task ID: ...` diagnostic line (cyan, bold) and cache the task id. -/
def taskIdOuts (st : RState) (task : TaskT) : List OutAct × Option String :=
  match st.task_id with
  | none => ([.diagStyled ("Task ID: " ++ task.id) .cyan], some task.id)
  | some tid => ([], some tid)

/-- One iteration of the `async for event in resp:` body of `stream_task`:
given the current state and the event, the outputs performed and the next
state, or `.error outs` when the body raises (only `get_text` can), with
`outs` the outputs flushed before the raise. -/
def processEvent (st : RState) : Event → Except (List OutAct) (List OutAct × RState)
  | .message m =>
    .ok (closeIfOpen st.artifact_open_line ++ renderMessageParts m.parts,
      ⟨st.task_id, false⟩)
  | .pair task upd =>
    let pr : List OutAct := [.printRepr upd]
    let tOuts := (taskIdOuts st task).1
    let tid := (taskIdOuts st task).2
    match upd with
    | .artifactUpdate art =>
      if art.name = "final_output_total" then
        .ok (pr ++ tOuts, ⟨tid, st.artifact_open_line⟩)
      else
        let color := if art.name = "tool_result" then Color.cyan else Color.green
        let force_newline := art.name = "tool_result"
        let chunks := (artifactLoop color false art.parts).1
        let trailing := (artifactLoop color false art.parts).2
        if force_newline && !trailing then
          .ok (pr ++ tOuts ++ chunks ++ [.primBlank], ⟨tid, false⟩)
        else
          .ok (pr ++ tOuts ++ chunks, ⟨tid, !trailing⟩)
    | .statusUpdate status =>
      let pre := closeIfOpen st.artifact_open_line
      let statusLine : OutAct := .diagStyled ("Status: " ++ status.state) .yellow
      match get_text status.message with
      | .error _ => .error (pr ++ tOuts ++ pre ++ [statusLine])
      | .ok txt =>
        .ok (pr ++ tOuts ++ pre ++ [statusLine] ++
          (if txt = "" then [] else [.diagStyled txt .yellow]), ⟨tid, false⟩)
    | .otherUpdate => .ok (pr ++ tOuts, ⟨tid, st.artifact_open_line⟩)
  | .otherEvent => .ok ([], st)

/-- The whole `async for` loop over a finite prefix of events: threads the
state through `processEvent`, concatenating outputs; an uncaught exception
aborts the loop, carrying the outputs flushed so far. -/
def runEvents (st : RState) : List Event → Except (List OutAct) (List OutAct × RState)
  | [] => .ok ([], st)
  | e :: rest =>
    match processEvent st e with
    | .error outs => .error outs
    | .ok (outs, st') =>
      match runEvents st' rest with
      | .error outs2 => .error (outs ++ outs2)
      | .ok (outs2, st'') => .ok (outs ++ outs2, st'')

/-- Initial state of a `stream_task` call: `task_id = None`,
`artifact_open_line = False`. -/
def initState : RState := ⟨none, false⟩

/-- The `except (A2AClientError, httpx.HTTPError, httpx.StreamError)` handler:
close any open artifact line, echo a blank line, then the three diagnostic
lines, and return. -/
def connectionLost (flag : Bool) (detail : String) : List OutAct :=
  closeIfOpen flag ++
    [.primBlank,
     .diagStyled "⚠ Connection lost" .red,
     .diagStyled ("  Server disconnected: " ++ detail) .red,
     .diagStyled "  The agent may have crashed or restarted." .brightBlack]

/-- One call of `stream_task`, as the list of output actions it performs.
`events` are the events the stream yields before it ends; `failure` is
`some detail` when iterating past them raises a transport error (caught by
the handler), `none` on normal exhaustion.  The result is `.error outs`
exactly when an uncaught exception propagates to the caller. -/
def stream_task (events : List Event) (failure : Option String) :
    Except (List OutAct) (List OutAct) :=
  match runEvents initState events with
  | .error outs => .error outs
  | .ok (outs, st) =>
    match failure with
    | some detail => .ok (outs ++ connectionLost st.artifact_open_line detail)
    | none => .ok (outs ++ closeIfOpen st.artifact_open_line ++ [.primBlank])

/-- The `artifact_open_line` flag after processing one event, when the body
does not raise. -/
def afterFlag (st : RState) (e : Event) : Option Bool :=
  (processEvent st e).toOption.map (fun r => r.2.artifact_open_line)

/-- The text carried by a part, when it is a text part. -/
def textOf (p : PartT) : Option String :=
  match p.root with
  | .textPart t => some t
  | .otherPart => none

/-- Spec-side reading of the open-line flag claimed for a non-suppressed
Artifact-Update: false for the tool-result marker; otherwise the last
character emitted for the artifact (over all its text parts, concatenated)
was not a newline — in particular true when nothing is emitted. -/
def claimedFlag (art : Artifact) : Bool :=
  if art.name = "tool_result" then false
  else !endsWithNL (String.join (art.parts.filterMap textOf))

/-- Spec-side closed-form of the flag the code actually computes for a
non-suppressed, non-tool-result artifact: the text of the last text part
does not end in a newline (artifacts without text parts count as not ending
in a newline). -/
def lastTextEndsNewline (parts : List PartT) : Bool :=
  (((parts.filterMap textOf).getLast?).map (fun t => endsWithNL t)).getD false

/-- A concrete final-output artifact update used to evaluate the code. -/
def finalOutputUpdate : UpdateT :=
  .artifactUpdate ⟨"final_output_total", [⟨.textPart "full accumulated text"⟩]⟩

/-- A status update whose message has an empty parts list. -/
def evEmptyParts : Event := .pair ⟨"T1"⟩ (.statusUpdate ⟨"working", some ⟨[]⟩⟩)

/-- A status update whose message's first part is not a text part. -/
def evNonTextFirst : Event :=
  .pair ⟨"T1"⟩ (.statusUpdate ⟨"working", some ⟨[⟨.otherPart⟩]⟩⟩)

/-- Whether an output action is a `Task ID: ...` diagnostic line: the cyan
diagnostic is used for nothing else in `stream_task`. -/
def isTaskIdLine : OutAct → Bool
  | .diagStyled _ .cyan => true
  | _ => false

/-- Spec-side: the task identifier of the first `(task, update)` pair of the
event sequence, if any. -/
def firstPairId : List Event → Option String
  | [] => none
  | .pair t _ :: _ => some t.id
  | .message _ :: rest => firstPairId rest
  | .otherEvent :: rest => firstPairId rest

/-- The task id a single event carries, when it is a `(task, update)` pair. -/
def pairIdOf : Event → Option String
  | .pair t _ => some t.id
  | _ => none

/-- The id announced (as a `Task ID` line) while processing one event: only
a pair seen while the cache is still empty announces. -/
def announcedId (st : RState) (e : Event) : Option String :=
  match st.task_id with
  | some _ => none
  | none => pairIdOf e

/-- The task-id cache after processing one event. -/
def nextTid (st : RState) (e : Event) : Option String :=
  match st.task_id with
  | some i => some i
  | none => pairIdOf e

/-- The `Task ID` announcement expected for a given first-pair id: one line
when a pair occurred, nothing otherwise. -/
def taskIdLineList : Option String → List OutAct
  | some i => [.diagStyled ("Task ID: " ++ i) .cyan]
  | none => []

theorem renderMessageParts_eq_filterMap (parts : List PartT) :
    renderMessageParts parts =
      parts.filterMap (fun p =>
        match p.root with
        | .textPart t => some (OutAct.primStyled t .brightWhite)
        | .otherPart => none) := by
  induction parts with
  | nil => rfl
  | cons p rest ih =>
    cases hr : p.root with
    | textPart t => simp [renderMessageParts, hr, List.filterMap_cons, ih]
    | otherPart => simp [renderMessageParts, hr, List.filterMap_cons, ih]

/-- C1: the claim asserts that a `final_output_total` Artifact-Update
produces no output on the primary stream; the code, before reaching the
suppression check, executes a leftover `print(update)` on stdout, so the
event's outputs do contain a primary-stream action.  Evaluated here at a
concrete such event from the initial state: the outputs are the stdout repr
of the update plus the diagnostic Task-ID line, and filtering the outputs to
primary-stream actions leaves the `print` action. -/
theorem c1_final_output_suppression_print_leak :
    processEvent initState (.pair ⟨"T1"⟩ finalOutputUpdate) =
      .ok ([.printRepr finalOutputUpdate, .diagStyled "Task ID: T1" .cyan],
        ⟨some "T1", false⟩) ∧
    ([OutAct.printRepr finalOutputUpdate,
      .diagStyled "Task ID: T1" .cyan].filter OutAct.isPrimary) =
      [.printRepr finalOutputUpdate] :=
  ⟨rfl, rfl⟩

/-- C7: an Artifact-Update named `tool_result` always leaves the open-line
flag false after processing, whatever its parts and the incoming state. -/
theorem c7_tool_result_always_closes (st : RState) (t : TaskT)
    (parts : List PartT) :
    afterFlag st (.pair t (.artifactUpdate ⟨"tool_result", parts⟩)) =
      some false := by
  cases h : (artifactLoop Color.cyan false parts).2 <;>
    simp [afterFlag, processEvent, h] <;>
    exact ⟨_, _, rfl, rfl⟩

/-- C8: a final Message renders exactly its text parts, each as one styled
line on the primary stream, in part order (a filterMap over the parts),
preceded only by the closing break for a previously open artifact line;
non-text parts contribute nothing. -/
theorem c8_final_message_renders_text_parts (st : RState) (m : MessageT) :
    processEvent st (.message m) =
      .ok (closeIfOpen st.artifact_open_line ++
        m.parts.filterMap (fun p =>
          match p.root with
          | .textPart t => some (OutAct.primStyled t .brightWhite)
          | .otherPart => none),
        ⟨st.task_id, false⟩) := by
  simp [processEvent, renderMessageParts_eq_filterMap]

/-- C10: `get_text` is total only on messages whose first part is a text
part; on a status update whose message has an empty parts list, or whose
first part is non-text, the unguarded `msg.parts[0].root.text` raises and
the exception propagates out of `stream_task` (an `.error` result), after
the Task-ID and status lines were already flushed. -/
theorem c10_get_text_partiality :
    stream_task [evEmptyParts] none =
      .error [.printRepr (.statusUpdate ⟨"working", some ⟨[]⟩⟩),
        .diagStyled "Task ID: T1" .cyan,
        .diagStyled "Status: working" .yellow] ∧
    stream_task [evNonTextFirst] none =
      .error [.printRepr (.statusUpdate ⟨"working", some ⟨[⟨.otherPart⟩]⟩⟩),
        .diagStyled "Task ID: T1" .cyan,
        .diagStyled "Status: working" .yellow] ∧
    ∀ m : MessageT, (∃ s, get_text (some m) = .ok s) ↔
      ∃ t rest, m.parts = ⟨PartRoot.textPart t⟩ :: rest := by
  refine ⟨rfl, rfl, ?_⟩
  intro m
  obtain ⟨parts⟩ := m
  cases parts with
  | nil => simp [get_text]
  | cons p rest =>
    obtain ⟨root⟩ := p
    cases root with
    | textPart t => simp [get_text]
    | otherPart => simp [get_text]

theorem artifactLoop_snd (c : Color) (b : Bool) (parts : List PartT) :
    (artifactLoop c b parts).2 =
      (((parts.filterMap textOf).getLast?).map (fun t => endsWithNL t)).getD b := by
  induction parts generalizing b with
  | nil => simp [artifactLoop]
  | cons p rest ih =>
    cases hr : p.root with
    | textPart t =>
      have hstep : (artifactLoop c b (p :: rest)).2 =
          (artifactLoop c (endsWithNL t) rest).2 := by
        simp [artifactLoop, hr]
      rw [hstep, ih]
      have hfm : (p :: rest).filterMap textOf = t :: rest.filterMap textOf := by
        simp [List.filterMap_cons, textOf, hr]
      rw [hfm]
      cases hL : rest.filterMap textOf with
      | nil => simp
      | cons x xs =>
        rw [List.getLast?_cons_cons]
        cases hg : (x :: xs).getLast? with
        | none => exact absurd (List.getLast?_eq_none_iff.mp hg) (by simp)
        | some z => simp [hg]
    | otherPart =>
      have hstep : (artifactLoop c b (p :: rest)).2 =
          (artifactLoop c b rest).2 := by
        simp [artifactLoop, hr]
      have hfm : (p :: rest).filterMap textOf = rest.filterMap textOf := by
        simp [List.filterMap_cons, textOf, hr]
      rw [hstep, ih, hfm]

theorem artifactLoop_snd_false (c : Color) (parts : List PartT) :
    (artifactLoop c false parts).2 = lastTextEndsNewline parts := by
  rw [artifactLoop_snd]
  rfl

/-- C4 counterexample: the claim reads the flag as "the last character
emitted for the artifact was not a newline", but the code only looks at
`text.endswith("\n")` of the last text part.  For the artifact
`⟨"stream", [text "a\n", text ""]⟩` the last character actually emitted is
the newline of `"a\n"` (the empty final chunk emits nothing), so the claim
says the flag should be false, yet the code leaves it true. -/
theorem c4_counterexample_empty_last_chunk :
    afterFlag initState
        (.pair ⟨"T1"⟩ (.artifactUpdate
          ⟨"stream", [⟨.textPart "a\n"⟩, ⟨.textPart ""⟩]⟩)) = some true ∧
    claimedFlag ⟨"stream", [⟨.textPart "a\n"⟩, ⟨.textPart ""⟩]⟩ = false :=
  ⟨rfl, rfl⟩

/-- C4 amended: after a non-suppressed Artifact-Update, the open-line flag
equals "the text of the LAST TEXT PART does not end in a newline" (artifacts
without text parts, or whose last text part is empty, count as not ending in
a newline), except for the tool-result marker, where it is always false. -/
theorem c4_amended_flag_from_last_text_part (st : RState) (t : TaskT)
    (art : Artifact) (h : art.name ≠ "final_output_total") :
    afterFlag st (.pair t (.artifactUpdate art)) =
      some (if art.name = "tool_result" then false
        else !(lastTextEndsNewline art.parts)) := by
  obtain ⟨nm, parts⟩ := art
  simp only at h ⊢
  by_cases htool : nm = "tool_result"
  · subst htool
    cases hsnd : (artifactLoop Color.cyan false parts).2 <;>
      simp [afterFlag, processEvent, hsnd] <;> exact ⟨_, _, rfl, rfl⟩
  · have hl : lastTextEndsNewline parts = (artifactLoop Color.green false parts).2 :=
      (artifactLoop_snd_false Color.green parts).symm
    cases hsnd : (artifactLoop Color.green false parts).2 with
    | false =>
      have hlast : lastTextEndsNewline parts = false := by rw [hl, hsnd]
      simp [afterFlag, processEvent, h, htool, hsnd, hlast]
      exact ⟨_, _, rfl, rfl⟩
    | true =>
      have hlast : lastTextEndsNewline parts = true := by rw [hl, hsnd]
      simp [afterFlag, processEvent, h, htool, hsnd, hlast]
      exact ⟨_, _, rfl, rfl⟩

/-- C4 amended witness: a green artifact whose single text chunk `"ab"` does
not end in a newline leaves the flag true. -/
theorem c4_amended_witness :
    (⟨"stream", [⟨PartRoot.textPart "ab"⟩]⟩ : Artifact).name ≠
        "final_output_total" ∧
    afterFlag initState
        (.pair ⟨"T1"⟩ (.artifactUpdate ⟨"stream", [⟨.textPart "ab"⟩]⟩)) =
      some (if (⟨"stream", [⟨PartRoot.textPart "ab"⟩]⟩ : Artifact).name =
          "tool_result" then false
        else !(lastTextEndsNewline [⟨PartRoot.textPart "ab"⟩])) :=
  ⟨by decide,
    c4_amended_flag_from_last_text_part initState ⟨"T1"⟩
      ⟨"stream", [⟨.textPart "ab"⟩]⟩ (by decide)⟩

theorem stream_task_none_eq (events : List Event) (outs : List OutAct)
    (st : RState) (h : runEvents initState events = .ok (outs, st)) :
    stream_task events none =
      .ok (outs ++ closeIfOpen st.artifact_open_line ++ [.primBlank]) := by
  simp [stream_task, h]

theorem stream_task_some_eq (events : List Event) (detail : String)
    (outs : List OutAct) (st : RState)
    (h : runEvents initState events = .ok (outs, st)) :
    stream_task events (some detail) =
      .ok (outs ++ connectionLost st.artifact_open_line detail) := by
  simp [stream_task, h]

/-- C2: when the transport raises after the events rendered so far, the call
emits exactly the outputs of those events, then closes any open artifact
line, emits a blank line, then the connection-lost warning and the failure
detail on the diagnostic stream, and returns normally (an `.ok` result, the
exception is not propagated). -/
theorem c2_transport_failure_contained (events : List Event) (detail : String)
    (outs : List OutAct) (st : RState)
    (h : runEvents initState events = .ok (outs, st)) :
    stream_task events (some detail) =
      .ok (outs ++ closeIfOpen st.artifact_open_line ++
        [.primBlank,
         .diagStyled "⚠ Connection lost" .red,
         .diagStyled ("  Server disconnected: " ++ detail) .red,
         .diagStyled "  The agent may have crashed or restarted." .brightBlack]) := by
  simp [stream_task, h, connectionLost]

/-- C2 witness: the spec's own scenario — two `partial` artifact chunks
`"Hello"` and `" world\n"`, then a connection error: both chunks are
rendered, no closing break is needed (the flag ended false), the blank line
and the diagnostic warning follow, and the call returns normally. -/
theorem c2_witness :
    stream_task
        [.pair ⟨"T1"⟩ (.artifactUpdate ⟨"partial", [⟨.textPart "Hello"⟩]⟩),
         .pair ⟨"T1"⟩ (.artifactUpdate ⟨"partial", [⟨.textPart " world\n"⟩]⟩)]
        (some "boom") =
      .ok [.printRepr (.artifactUpdate ⟨"partial", [⟨.textPart "Hello"⟩]⟩),
        .diagStyled "Task ID: T1" .cyan,
        .primChunk "Hello" .green,
        .printRepr (.artifactUpdate ⟨"partial", [⟨.textPart " world\n"⟩]⟩),
        .primChunk " world\n" .green,
        .primBlank,
        .diagStyled "⚠ Connection lost" .red,
        .diagStyled "  Server disconnected: boom" .red,
        .diagStyled "  The agent may have crashed or restarted." .brightBlack] :=
  c2_transport_failure_contained
    [.pair ⟨"T1"⟩ (.artifactUpdate ⟨"partial", [⟨.textPart "Hello"⟩]⟩),
     .pair ⟨"T1"⟩ (.artifactUpdate ⟨"partial", [⟨.textPart " world\n"⟩]⟩)]
    "boom" _ _ (by rfl)

/-- C9: on normal exhaustion the call appends a closing line break exactly
when an artifact line is still open, then exactly one final blank line on
the primary stream, and returns. -/
theorem c9_normal_exhaustion_final_blank (events : List Event)
    (outs : List OutAct) (st : RState)
    (h : runEvents initState events = .ok (outs, st)) :
    stream_task events none =
      .ok (outs ++ closeIfOpen st.artifact_open_line ++ [.primBlank]) := by
  simp [stream_task, h]

/-- C9 witness: a single artifact chunk `"abc"` without trailing newline
leaves the line open, so the call closes it and then emits the final blank
line. -/
theorem c9_witness :
    stream_task [.pair ⟨"T1"⟩ (.artifactUpdate ⟨"partial", [⟨.textPart "abc"⟩]⟩)]
        none =
      .ok [.printRepr (.artifactUpdate ⟨"partial", [⟨.textPart "abc"⟩]⟩),
        .diagStyled "Task ID: T1" .cyan,
        .primChunk "abc" .green,
        .primBlank,
        .primBlank] :=
  c9_normal_exhaustion_final_blank
    [.pair ⟨"T1"⟩ (.artifactUpdate ⟨"partial", [⟨.textPart "abc"⟩]⟩)] _ _ (by rfl)

theorem processEvent_message_eq (st : RState) (m : MessageT) :
    processEvent st (.message m) =
      .ok (closeIfOpen st.artifact_open_line ++ renderMessageParts m.parts,
        ⟨st.task_id, false⟩) := rfl

theorem processEvent_otherEvent_eq (st : RState) :
    processEvent st .otherEvent = .ok ([], st) := rfl

theorem processEvent_otherUpdate_eq (st : RState) (t : TaskT) :
    processEvent st (.pair t .otherUpdate) =
      .ok ([.printRepr .otherUpdate] ++ (taskIdOuts st t).1,
        ⟨(taskIdOuts st t).2, st.artifact_open_line⟩) := rfl

theorem processEvent_artifact_final_eq (st : RState) (t : TaskT)
    (art : Artifact) (hname : art.name = "final_output_total") :
    processEvent st (.pair t (.artifactUpdate art)) =
      .ok ([.printRepr (.artifactUpdate art)] ++ (taskIdOuts st t).1,
        ⟨(taskIdOuts st t).2, st.artifact_open_line⟩) := by
  simp [processEvent, hname]

theorem processEvent_artifact_tool_eq (st : RState) (t : TaskT)
    (art : Artifact) (hname : art.name = "tool_result") :
    processEvent st (.pair t (.artifactUpdate art)) =
      .ok ([.printRepr (.artifactUpdate art)] ++ (taskIdOuts st t).1 ++
        (artifactLoop Color.cyan false art.parts).1 ++
        (if (artifactLoop Color.cyan false art.parts).2 then [] else [.primBlank]),
        ⟨(taskIdOuts st t).2, false⟩) := by
  obtain ⟨nm, parts⟩ := art
  simp only at hname
  subst hname
  cases htr : (artifactLoop Color.cyan false parts).2 <;>
    simp [processEvent, htr]

theorem processEvent_artifact_other_eq (st : RState) (t : TaskT)
    (art : Artifact) (h1 : art.name ≠ "final_output_total")
    (h2 : art.name ≠ "tool_result") :
    processEvent st (.pair t (.artifactUpdate art)) =
      .ok ([.printRepr (.artifactUpdate art)] ++ (taskIdOuts st t).1 ++
        (artifactLoop Color.green false art.parts).1,
        ⟨(taskIdOuts st t).2, !(artifactLoop Color.green false art.parts).2⟩) := by
  simp [processEvent, h1, h2]

theorem processEvent_status_ok_eq (st : RState) (t : TaskT) (s : TaskStatus)
    (txt : String) (hg : get_text s.message = .ok txt) :
    processEvent st (.pair t (.statusUpdate s)) =
      .ok ([.printRepr (.statusUpdate s)] ++ (taskIdOuts st t).1 ++
        closeIfOpen st.artifact_open_line ++
        [.diagStyled ("Status: " ++ s.state) .yellow] ++
        (if txt = "" then [] else [.diagStyled txt .yellow]),
        ⟨(taskIdOuts st t).2, false⟩) := by
  simp [processEvent, hg]

theorem processEvent_status_error_eq (st : RState) (t : TaskT)
    (s : TaskStatus) (u : Unit) (hg : get_text s.message = .error u) :
    processEvent st (.pair t (.statusUpdate s)) =
      .error ([.printRepr (.statusUpdate s)] ++ (taskIdOuts st t).1 ++
        closeIfOpen st.artifact_open_line ++
        [.diagStyled ("Status: " ++ s.state) .yellow]) := by
  simp [processEvent, hg]

theorem filter_taskId_renderMessageParts (parts : List PartT) :
    (renderMessageParts parts).filter isTaskIdLine = [] := by
  induction parts with
  | nil => rfl
  | cons p rest ih =>
    cases hr : p.root <;> simp [renderMessageParts, hr, ih, isTaskIdLine]

theorem filter_taskId_artifactLoop (c : Color) (b : Bool) (parts : List PartT) :
    ((artifactLoop c b parts).1).filter isTaskIdLine = [] := by
  induction parts generalizing b with
  | nil => rfl
  | cons p rest ih =>
    cases hr : p.root <;> simp [artifactLoop, hr, ih, isTaskIdLine]

theorem filter_taskId_closeIfOpen (flag : Bool) :
    (closeIfOpen flag).filter isTaskIdLine = [] := by
  cases flag <;> rfl

theorem filter_taskId_connectionLost (flag : Bool) (detail : String) :
    (connectionLost flag detail).filter isTaskIdLine = [] := by
  cases flag <;> rfl

theorem filter_taskId_taskIdOuts (st : RState) (t : TaskT) (upd : UpdateT) :
    ((taskIdOuts st t).1).filter isTaskIdLine =
      taskIdLineList (announcedId st (.pair t upd)) := by
  cases hst : st.task_id <;>
    simp [taskIdOuts, hst, announcedId, pairIdOf, taskIdLineList, isTaskIdLine]

theorem processEvent_filter {st : RState} {e : Event} {outs : List OutAct}
    {st' : RState} (h : processEvent st e = .ok (outs, st')) :
    outs.filter isTaskIdLine = taskIdLineList (announcedId st e) ∧
      st'.task_id = nextTid st e := by
  cases e with
  | otherEvent =>
    rw [processEvent_otherEvent_eq] at h
    obtain ⟨h1, h2⟩ := by simpa using h
    subst h1 h2
    cases hst : st.task_id <;>
      simp [announcedId, hst, pairIdOf, taskIdLineList, nextTid]
  | message m =>
    rw [processEvent_message_eq] at h
    obtain ⟨h1, h2⟩ := by simpa using h
    subst h1
    cases h2
    refine ⟨?_, ?_⟩
    · cases hst : st.task_id <;>
        simp [announcedId, hst, pairIdOf, taskIdLineList, List.filter_append,
          filter_taskId_closeIfOpen, filter_taskId_renderMessageParts]
    · cases hst : st.task_id <;> simp [nextTid, hst, pairIdOf]
  | pair t upd =>
    have htid : (taskIdOuts st t).2 = nextTid st (.pair t upd) := by
      cases hst : st.task_id <;> simp [taskIdOuts, hst, nextTid, pairIdOf]
    cases upd with
    | otherUpdate =>
      rw [processEvent_otherUpdate_eq] at h
      obtain ⟨h1, h2⟩ := by simpa using h
      subst h1
      cases h2
      exact ⟨by simpa using filter_taskId_taskIdOuts st t .otherUpdate, htid⟩
    | artifactUpdate art =>
      by_cases h1 : art.name = "final_output_total"
      · rw [processEvent_artifact_final_eq st t art h1] at h
        obtain ⟨ha, hb⟩ := by simpa using h
        subst ha
        cases hb
        exact ⟨by simpa using filter_taskId_taskIdOuts st t (.artifactUpdate art),
          htid⟩
      · by_cases h2 : art.name = "tool_result"
        · rw [processEvent_artifact_tool_eq st t art h2] at h
          obtain ⟨ha, hb⟩ := by simpa using h
          subst ha
          cases hb
          refine ⟨?_, htid⟩
          cases htr : (artifactLoop Color.cyan false art.parts).2 <;>
            simp [List.filter_append, filter_taskId_artifactLoop, htr,
              filter_taskId_taskIdOuts st t (.artifactUpdate art), isTaskIdLine]
        · rw [processEvent_artifact_other_eq st t art h1 h2] at h
          obtain ⟨ha, hb⟩ := by simpa using h
          subst ha
          cases hb
          refine ⟨?_, htid⟩
          simp [List.filter_append, filter_taskId_artifactLoop,
            filter_taskId_taskIdOuts st t (.artifactUpdate art), isTaskIdLine]
    | statusUpdate s =>
      cases hg : get_text s.message with
      | error u =>
        rw [processEvent_status_error_eq st t s u hg] at h
        exact absurd h (by simp)
      | ok txt =>
        rw [processEvent_status_ok_eq st t s txt hg] at h
        obtain ⟨ha, hb⟩ := by simpa using h
        subst ha
        cases hb
        refine ⟨?_, htid⟩
        cases htxt : (txt == "") <;>
          simp_all [List.filter_append, filter_taskId_closeIfOpen,
            filter_taskId_taskIdOuts st t (.statusUpdate s), isTaskIdLine]

theorem runEvents_filter_some {events : List Event} {st : RState}
    {outs : List OutAct} {st' : RState} (i : String)
    (hst : st.task_id = some i) (h : runEvents st events = .ok (outs, st')) :
    outs.filter isTaskIdLine = [] ∧ st'.task_id = some i := by
  induction events generalizing st outs with
  | nil =>
    obtain ⟨h1, h2⟩ := by simpa [runEvents] using h
    subst h1
    cases h2
    exact ⟨rfl, hst⟩
  | cons e rest ih =>
    unfold runEvents at h
    split at h
    · exact absurd h (by simp)
    · rename_i outs1 st1 hpe
      split at h
      · exact absurd h (by simp)
      · rename_i outs2 st2 hrr
        obtain ⟨h1, h2⟩ := by simpa using h
        subst h1
        cases h2
        obtain ⟨hfil1, htid1⟩ := processEvent_filter hpe
        have hst1 : st1.task_id = some i := by
          rw [htid1]; simp [nextTid, hst]
        obtain ⟨hfil2, htid2⟩ := ih hst1 hrr
        refine ⟨?_, htid2⟩
        rw [List.filter_append, hfil1, hfil2]
        simp [announcedId, hst, taskIdLineList]

theorem runEvents_filter_none {events : List Event} {st : RState}
    {outs : List OutAct} {st' : RState}
    (hst : st.task_id = none) (h : runEvents st events = .ok (outs, st')) :
    outs.filter isTaskIdLine = taskIdLineList (firstPairId events) ∧
      st'.task_id = firstPairId events := by
  induction events generalizing st outs with
  | nil =>
    obtain ⟨h1, h2⟩ := by simpa [runEvents] using h
    subst h1
    cases h2
    exact ⟨rfl, hst⟩
  | cons e rest ih =>
    unfold runEvents at h
    split at h
    · exact absurd h (by simp)
    · rename_i outs1 st1 hpe
      split at h
      · exact absurd h (by simp)
      · rename_i outs2 st2 hrr
        obtain ⟨h1, h2⟩ := by simpa using h
        subst h1
        cases h2
        obtain ⟨hfil1, htid1⟩ := processEvent_filter hpe
        cases e with
        | pair t upd =>
          have hst1 : st1.task_id = some t.id := by
            rw [htid1]; simp [nextTid, hst, pairIdOf]
          obtain ⟨hfil2, htid2⟩ := runEvents_filter_some t.id hst1 hrr
          refine ⟨?_, by simpa [firstPairId] using htid2⟩
          rw [List.filter_append, hfil1, hfil2]
          simp [announcedId, hst, pairIdOf, firstPairId, taskIdLineList]
        | message m =>
          have hst1 : st1.task_id = none := by
            rw [htid1]; simp [nextTid, hst, pairIdOf]
          obtain ⟨hfil2, htid2⟩ := ih hst1 hrr
          refine ⟨?_, by simpa [firstPairId] using htid2⟩
          rw [List.filter_append, hfil1, hfil2]
          simp [announcedId, hst, pairIdOf, firstPairId, taskIdLineList]
        | otherEvent =>
          have hst1 : st1.task_id = none := by
            rw [htid1]; simp [nextTid, hst, pairIdOf]
          obtain ⟨hfil2, htid2⟩ := ih hst1 hrr
          refine ⟨?_, by simpa [firstPairId] using htid2⟩
          rw [List.filter_append, hfil1, hfil2]
          simp [announcedId, hst, pairIdOf, firstPairId, taskIdLineList]

/-- C5: over one whole (normally returning) call, the `Task ID` diagnostic
line appears exactly once when the sequence contains a pair — carrying the
task id of the FIRST pair — and not at all otherwise; subsequent pairs never
re-announce, whatever their ids.  Stated as: the sublist of `Task ID` lines
of the whole trace is exactly the one line built from the first pair's id. -/
theorem c5_task_id_line_once (events : List Event) (failure : Option String)
    (outs : List OutAct) (h : stream_task events failure = .ok outs) :
    outs.filter isTaskIdLine = taskIdLineList (firstPairId events) := by
  unfold stream_task at h
  cases hrun : runEvents initState events with
  | error o => rw [hrun] at h; simp at h
  | ok p =>
    obtain ⟨o, st⟩ := p
    rw [hrun] at h
    obtain ⟨hf, _⟩ := runEvents_filter_none (by rfl) hrun
    cases failure with
    | some d =>
      have ho : outs = o ++ connectionLost st.artifact_open_line d := by
        simpa using h.symm
      subst ho
      rw [List.filter_append, hf, filter_taskId_connectionLost]
      simp
    | none =>
      have ho : outs = o ++ closeIfOpen st.artifact_open_line ++ [.primBlank] := by
        simpa using h.symm
      subst ho
      rw [List.filter_append, List.filter_append, hf, filter_taskId_closeIfOpen]
      simp [isTaskIdLine]

/-- C5 witness: two pairs with different task ids `T1`, `T2`; the whole
trace carries exactly one `Task ID` line, built from `T1`. -/
theorem c5_witness :
    ([.printRepr .otherUpdate, .diagStyled "Task ID: T1" .cyan,
      .printRepr .otherUpdate, .primBlank] : List OutAct).filter isTaskIdLine =
      taskIdLineList (firstPairId
        [.pair ⟨"T1"⟩ .otherUpdate, .pair ⟨"T2"⟩ .otherUpdate]) :=
  c5_task_id_line_once
    [.pair ⟨"T1"⟩ .otherUpdate, .pair ⟨"T2"⟩ .otherUpdate] none _ (by rfl)

/-- C6: a Status-Update (whose message `get_text` can read: absent message,
or first part a text part) emits the status line `Status: <state>` on the
diagnostic stream, and additionally the message text on the diagnostic
stream if and only if that text is non-empty. -/
theorem c6_status_emits_state_and_message (st : RState) (t : TaskT)
    (s : TaskStatus) (txt : String) (h : get_text s.message = .ok txt) :
    processEvent st (.pair t (.statusUpdate s)) =
      .ok ([.printRepr (.statusUpdate s)] ++ (taskIdOuts st t).1 ++
        closeIfOpen st.artifact_open_line ++
        [.diagStyled ("Status: " ++ s.state) .yellow] ++
        (if txt = "" then [] else [.diagStyled txt .yellow]),
        ⟨(taskIdOuts st t).2, false⟩) :=
  processEvent_status_ok_eq st t s txt h

/-- C6 witness: a `working` status whose message text is `"thinking"`: the
status line and the message line are both emitted to the diagnostic
stream. -/
theorem c6_witness :
    processEvent initState
        (.pair ⟨"T1"⟩ (.statusUpdate ⟨"working", some ⟨[⟨.textPart "thinking"⟩]⟩⟩)) =
      .ok ([.printRepr (.statusUpdate ⟨"working", some ⟨[⟨.textPart "thinking"⟩]⟩⟩)] ++
        (taskIdOuts initState ⟨"T1"⟩).1 ++
        closeIfOpen initState.artifact_open_line ++
        [.diagStyled ("Status: " ++ "working") .yellow] ++
        (if ("thinking" : String) = "" then [] else [.diagStyled "thinking" .yellow]),
        ⟨(taskIdOuts initState ⟨"T1"⟩).2, false⟩) :=
  c6_status_emits_state_and_message initState ⟨"T1"⟩
    ⟨"working", some ⟨[⟨.textPart "thinking"⟩]⟩⟩ "thinking" rfl

/-- C3: the open-line flag is false at every point where a status line or
final-message text is written, and false again at return: (1) a final
Message's lines are preceded exactly by the closing break for an open
artifact line, and the flag ends false; (2) a successfully processed
Status-Update writes its status line after the closing break and leaves the
flag false; (3) even when the status branch raises, the status line was
written after the closing break; (4) on normal exhaustion the call closes
any still-open line before the final blank line and returns. -/
theorem c3_open_line_closed_invariant :
    (∀ (st : RState) (m : MessageT),
      processEvent st (.message m) =
        .ok (closeIfOpen st.artifact_open_line ++ renderMessageParts m.parts,
          ⟨st.task_id, false⟩)) ∧
    (∀ (st : RState) (t : TaskT) (s : TaskStatus) (outs : List OutAct)
        (st' : RState),
      processEvent st (.pair t (.statusUpdate s)) = .ok (outs, st') →
        st'.artifact_open_line = false ∧
        ∃ tail, outs = .printRepr (.statusUpdate s) :: (taskIdOuts st t).1 ++
          closeIfOpen st.artifact_open_line ++
          .diagStyled ("Status: " ++ s.state) .yellow :: tail) ∧
    (∀ (st : RState) (t : TaskT) (s : TaskStatus) (outs : List OutAct),
      processEvent st (.pair t (.statusUpdate s)) = .error outs →
        outs = .printRepr (.statusUpdate s) :: (taskIdOuts st t).1 ++
          closeIfOpen st.artifact_open_line ++
          [.diagStyled ("Status: " ++ s.state) .yellow]) ∧
    (∀ (events : List Event) (outs : List OutAct) (st : RState),
      runEvents initState events = .ok (outs, st) →
        stream_task events none =
          .ok (outs ++ closeIfOpen st.artifact_open_line ++ [.primBlank])) := by
  refine ⟨fun st m => processEvent_message_eq st m, ?_, ?_, ?_⟩
  · intro st t s outs st' hok
    cases hg : get_text s.message with
    | error u =>
      rw [processEvent_status_error_eq st t s u hg] at hok
      exact absurd hok (by simp)
    | ok txt =>
      rw [processEvent_status_ok_eq st t s txt hg] at hok
      obtain ⟨h1, h2⟩ := by simpa using hok
      subst h1
      cases h2
      exact ⟨rfl, ⟨(if txt = "" then [] else [.diagStyled txt .yellow]), by simp⟩⟩
  · intro st t s outs herr
    cases hg : get_text s.message with
    | error u =>
      rw [processEvent_status_error_eq st t s u hg] at herr
      obtain h1 := by simpa using herr
      subst h1
      simp
    | ok txt =>
      rw [processEvent_status_ok_eq st t s txt hg] at herr
      exact absurd herr (by simp)
  · intro events outs st h
    exact stream_task_none_eq events outs st h

/-- C3 witness: from an open-line state with a cached task id, a completed
status with no message first closes the line, then writes the status line,
and leaves the flag false. -/
theorem c3_witness :
    (⟨some "T0", false⟩ : RState).artifact_open_line = false ∧
    ∃ tail, ([.printRepr (.statusUpdate ⟨"done", none⟩), .primBlank,
        .diagStyled "Status: done" .yellow] : List OutAct) =
      .printRepr (.statusUpdate ⟨"done", none⟩) ::
        (taskIdOuts ⟨some "T0", true⟩ ⟨"T1"⟩).1 ++
        closeIfOpen (⟨some "T0", true⟩ : RState).artifact_open_line ++
        .diagStyled ("Status: " ++ "done") .yellow :: tail :=
  c3_open_line_closed_invariant.2.1 ⟨some "T0", true⟩ ⟨"T1"⟩ ⟨"done", none⟩
    [.printRepr (.statusUpdate ⟨"done", none⟩), .primBlank,
      .diagStyled "Status: done" .yellow] ⟨some "T0", false⟩ (by rfl)

end A2aCli
